import Mathlib

/-!
Verification of the coroutine runtime's core primitives against their
implementation: the SPSC channel and its tagged `Blocker` waiter
(`src/sync/spsc.rs`), the IOCP selector's completion processing and timeout
conversion (`src/io/sys/windows/iocp.rs`), the overlapped socket-write
subscribe protocol (`src/io/sys/windows/net/socket_write.rs`), and the split
I/O halves (`src/io/sys/unix/split_io.rs`).

Machine words (coroutine and thread handle addresses) are modelled as `Nat`;
the SPSC queue is modelled as a `List` with push at the back and pop at the
front; side effects (unparking a blocker, scheduling a coroutine, OS calls)
are reified as data returned by the modelled operations.
-/

namespace MaySpec

instance {α β : Type} [DecidableEq α] [DecidableEq β] : DecidableEq (Except α β) :=
  fun x y =>
    match x, y with
    | .ok a, .ok b =>
      if h : a = b then isTrue (by rw [h]) else isFalse (by simp [h])
    | .error a, .error b =>
      if h : a = b then isTrue (by rw [h]) else isFalse (by simp [h])
    | .ok _, .error _ => isFalse (by simp)
    | .error _, .ok _ => isFalse (by simp)

/-- An opaque coroutine or thread handle, identified by its machine address. -/
abbrev Handle := Nat

/-- Clearing the low bit of a machine word, as the Rust `handle & !1` does
(for any word width, `x & !1 = x - x % 2 = x / 2 * 2`). -/
def clearLowBit (n : Nat) : Nat := n / 2 * 2

/-- `Blocker` from spsc.rs: a one-word tagged value (`handle: NonZeroUsize`)
holding either a coroutine handle (low bit 0) or a thread handle ORed with 1
(low bit 1). -/
structure Blocker where
  handle : Nat
deriving DecidableEq, Repr

/-- `Blocker::new_coroutine`: the coroutine handle is stored untouched
(its low bit is 0 by the 2-byte alignment requirement). -/
def Blocker.new_coroutine (co : Handle) : Blocker := ⟨co⟩

/-- `Blocker::new_thread`: the thread handle with the low bit set
(`handle |= 1`). -/
def Blocker.new_thread (t : Handle) : Blocker := ⟨t ||| 1⟩

/-- `Blocker::into_coroutine`: transmute the stored word back. -/
def Blocker.into_coroutine (b : Blocker) : Handle := b.handle

/-- `Blocker::into_thread`: mask off the tag bit (`handle & !1`). -/
def Blocker.into_thread (b : Blocker) : Handle := clearLowBit b.handle

/-- The effect of `Blocker::unpark`: either the coroutine is handed to
`get_scheduler().schedule(co)` or the OS thread is unparked. -/
inductive UnparkAction where
  | schedule (co : Handle)
  | thread_unpark (t : Handle)
deriving DecidableEq, Repr

/-- `Blocker::unpark`: dispatch on the low tag bit
(`(self.handle.get() & 1) == 0`, i.e. `handle % 2 = 0`, means coroutine). -/
def Blocker.unpark (b : Blocker) : UnparkAction :=
  if b.handle % 2 = 0 then .schedule b.into_coroutine
  else .thread_unpark b.into_thread

/-- The effect of `Drop for Blocker`: `unreachable!()` (a fatal panic) on a
coroutine tag, releasing the thread handle otherwise. -/
inductive BlockerDropOutcome where
  | fatal
  | release_thread (t : Handle)
deriving DecidableEq, Repr

/-- `impl Drop for Blocker`: `if (self.handle.get() & 1) == 0 { unreachable!() }
else { transmute the thread handle back (releasing it) }`. -/
def Blocker.drop_blocker (b : Blocker) : BlockerDropOutcome :=
  if b.handle % 2 = 0 then .fatal
  else .release_thread (clearLowBit b.handle)

/-- `std::sync::mpsc::TryRecvError`, the error type of `try_recv`. -/
inductive TryRecvError where
  | Empty
  | Disconnected
deriving DecidableEq, Repr

/-- `InnerQueue<T>` from spsc.rs: the lock-free SPSC queue (a FIFO list:
push at the back, pop at the front), the waiter slot
(`wait_co: AtomicOption<Blocker>`), the sender-alive counter `channels`,
and the receiver-dropped flag `port_dropped`. -/
structure InnerQueue (T : Type) where
  queue : List T
  wait_co : Option Blocker
  channels : Nat
  port_dropped : Bool
deriving DecidableEq, Repr

/-- Result of `InnerQueue::send`: the updated channel state, `Ok(())` or
`Err(t)` carrying the value back, and the unpark action performed on a
blocker taken from the waiter slot (if any). -/
structure SendOutcome (T : Type) where
  state : InnerQueue T
  result : Except T Unit
  unparked : Option UnparkAction
deriving DecidableEq, Repr

/-- `InnerQueue::send` (spsc.rs lines 151-160): if `port_dropped` return
`Err(t)`; otherwise push `t`, `take` the waiter slot and `unpark` the
blocker if one was present, then return `Ok(())`. -/
def InnerQueue.send {T : Type} (s : InnerQueue T) (t : T) : SendOutcome T :=
  if s.port_dropped then ⟨s, .error t, none⟩
  else
    let s1 : InnerQueue T := { s with queue := s.queue ++ [t] }
    match s1.wait_co with
    | some b => ⟨{ s1 with wait_co := none }, .ok (), some b.unpark⟩
    | none => ⟨s1, .ok (), none⟩

/-- Result of `InnerQueue::try_recv`: updated state and `Ok(data)` or an
error. -/
structure RecvOutcome (T : Type) where
  state : InnerQueue T
  result : Except TryRecvError T
deriving DecidableEq, Repr

/-- `InnerQueue::try_recv` (spsc.rs lines 190-203), sequential view: pop;
on `Some` return it; on empty, `Empty` while `channels > 0`, else pop a
second time and map a still-empty queue to `Disconnected`. -/
def InnerQueue.try_recv {T : Type} (s : InnerQueue T) : RecvOutcome T :=
  match s.queue with
  | data :: rest => ⟨{ s with queue := rest }, .ok data⟩
  | [] =>
    if 0 < s.channels then ⟨s, .error .Empty⟩
    else
      -- there is no sender any more, should re-check
      match s.queue with
      | data :: rest => ⟨{ s with queue := rest }, .ok data⟩
      | [] => ⟨s, .error .Disconnected⟩

/-- `InnerQueue::try_recv` with the two `queue.pop()` calls exposed as the
values they return (`pop1` and `pop2`): a concurrent final `send` may push
between the two calls, so the second pop can succeed where the first found
the queue empty. This is the exact branch structure of the source. -/
def try_recv_race {T : Type} (pop1 : Option T) (channels : Nat)
    (pop2 : Option T) : Except TryRecvError T :=
  match pop1 with
  | some data => .ok data
  | none =>
    if 0 < channels then .error .Empty
    else
      match pop2 with
      | some data => .ok data
      | none => .error .Disconnected

/-- Result of `InnerQueue::drop_chan`: the updated state, plus the unpark
action performed on a blocker taken from the waiter slot (if any). -/
structure DropChanOutcome (T : Type) where
  state : InnerQueue T
  unparked : Option UnparkAction
deriving DecidableEq, Repr

/-- `InnerQueue::drop_chan` (spsc.rs lines 205-210): store 0 to `channels`,
then `take` the waiter slot and `unpark` any blocker found. -/
def InnerQueue.drop_chan {T : Type} (s : InnerQueue T) : DropChanOutcome T :=
  let s1 : InnerQueue T := { s with channels := 0 }
  match s1.wait_co with
  | some b => ⟨{ s1 with wait_co := none }, some b.unpark⟩
  | none => ⟨s1, none⟩

/-- `impl Drop for Sender` (spsc.rs lines 266-270) simply calls
`self.inner.drop_chan()`. -/
def sender_drop {T : Type} (s : InnerQueue T) : DropChanOutcome T :=
  s.drop_chan

/-- The observable steps of `Park::subscribe`, in the order they execute. -/
inductive ParkStep where
  | store_waiter (b : Blocker)
  | recheck (queue_empty : Bool)
  | take_waiter (b : Option Blocker)
  | run_co (co : Handle)
deriving DecidableEq, Repr

/-- Result of `Park::subscribe`: the channel state afterwards, the coroutine
handed to `run_coroutine` (if the double-check fired), and the step trace. -/
structure ParkSubscribeOutcome (T : Type) where
  state : InnerQueue T
  resumed : Option Handle
  trace : List ParkStep
deriving DecidableEq, Repr

/-- `Park::subscribe` (spsc.rs lines 54-70): `unsync_store` a coroutine
blocker into the waiter slot, then re-check `queue.is_empty()`; when the
queue is non-empty, `take` the slot and, if a blocker came back,
`run_coroutine(co.into_coroutine())`. -/
def Park.subscribe {T : Type} (s : InnerQueue T) (co : Handle) :
    ParkSubscribeOutcome T :=
  let b := Blocker.new_coroutine co
  let s1 : InnerQueue T := { s with wait_co := some b }
  if s1.queue.isEmpty then
    ⟨s1, none, [.store_waiter b, .recheck true]⟩
  else
    match s1.wait_co with
    | some b2 =>
      ⟨{ s1 with wait_co := none }, some b2.into_coroutine,
       [.store_waiter b, .recheck false, .take_waiter (some b2),
        .run_co b2.into_coroutine]⟩
    | none => ⟨s1, none, [.store_waiter b, .recheck false, .take_waiter none]⟩

namespace Iocp

/-- `winapi::ERROR_OPERATION_ABORTED`, the status of an I/O cancelled by
`CancelIoEx` (the timeout path). -/
def ERROR_OPERATION_ABORTED : Nat := 995

/-- `winapi::NO_ERROR`. -/
def NO_ERROR : Nat := 0

/-- The `EventData` fields that completion processing touches: the optional
timer handle and the single-slot coroutine holder. -/
structure EventData where
  timer : Option Nat
  co : Option Handle
deriving DecidableEq, Repr

/-- What `set_co_para` left in the resumed coroutine's parameter slot. -/
inductive CoPara where
  | noError
  | timedOut
  | osError (code : Nat)
deriving DecidableEq, Repr

/-- Effects of processing one completion status in `Selector::select`:
the EventData afterwards, the parameter-slot content, the timer handle
removed from the wheel (if any), and the coroutine given to `schedule_io`. -/
structure EventOutcome where
  eventData : EventData
  para : CoPara
  timer_removed : Option Nat
  scheduled : Handle
deriving DecidableEq, Repr

/-- One iteration of the status loop in `Selector::select` (iocp.rs lines
91-119): `data.co.take().unwrap()` (`none` overall models the panic when the
slot is empty), then match on `overlapped.Internal`:
`ERROR_OPERATION_ABORTED` stores a `TimedOut` error via `set_co_para` and
removes the timer from the wheel; `NO_ERROR` does nothing; any other status
stores the raw OS error. Finally the coroutine goes to `s.schedule_io(co)`. -/
def process_event (internal : Nat) (data : EventData) : Option EventOutcome :=
  match data.co with
  | none => none
  | some co =>
    let data1 : EventData := { data with co := none }
    if internal = ERROR_OPERATION_ABORTED then
      some { eventData := { data1 with timer := none }, para := .timedOut,
             timer_removed := data1.timer, scheduled := co }
    else if internal = NO_ERROR then
      some { eventData := data1, para := .noError, timer_removed := none,
             scheduled := co }
    else
      some { eventData := data1, para := .osError internal,
             timer_removed := none, scheduled := co }

/-- Modelled from the spec: `ns_to_ms` lives in `timeout_list`, which is not
under src/. The spec says timeouts are "monotonic nanoseconds internally;
converted to the OS's native units at the boundary" — milliseconds on this
backend. -/
def ns_to_ms (ns : Nat) : Nat := ns / 1000000

/-- `u32::MAX`, the platform maximum for an IOCP wait. -/
def U32_MAX : Nat := 4294967295

/-- The timeout conversion at iocp.rs line 82:
`timeout.map(|to| cmp::min(ns_to_ms(to), u32::MAX as u64) as u32)`. -/
def select_timeout (timeout : Option Nat) : Option Nat :=
  timeout.map (fun ns => min (ns_to_ms ns) U32_MAX)

end Iocp

namespace SocketWrite

/-- The observable steps of `SocketWrite::subscribe`, in the order they
execute. -/
inductive Step where
  | add_io_timer (timeout : Option Nat)
  | publish_co (co : Handle)
  | os_write_call
  | resume_with_error (co : Handle) (err : Nat)
deriving DecidableEq, Repr

/-- Result of `SocketWrite::subscribe`: the step trace and the final content
of the EventData's coroutine slot. -/
structure WriteSubscribeOutcome where
  trace : List Step
  co_slot : Option Handle
deriving DecidableEq, Repr

/-- `SocketWrite::subscribe` (socket_write.rs lines 38-51): register the
operation's timeout with the selector (`add_io_timer`), publish the
coroutine into the EventData slot (`self.io_data.co.swap(co, Release)`),
then issue the overlapped write. `co_try!` is a macro not under src/; its
error path is modelled from the spec's subscribe contract: on `Err(e)` from
the OS call, take the coroutine back out of the slot
(`self.io_data.co.take(AcqRel)`) and resume it with the error. -/
def subscribe (co : Handle) (timeout : Option Nat)
    (os_result : Except Nat Unit) : WriteSubscribeOutcome :=
  let t : List Step := [.add_io_timer timeout, .publish_co co]
  match os_result with
  | .ok _ => ⟨t ++ [.os_write_call], some co⟩
  | .error e => ⟨t ++ [.os_write_call, .resume_with_error co e], none⟩

end SocketWrite

namespace SplitIo

/-- `SplitReader<T>`: wraps the inner I/O object, whose state is modelled by
`σ`. -/
structure SplitReader (σ : Type) where
  inner : σ

/-- `SplitWriter<T>`: wraps the inner I/O object, whose state is modelled by
`σ`. -/
structure SplitWriter (σ : Type) where
  inner : σ

/-- `Read for SplitReader` (split_io.rs lines 32-36): `self.inner.read(buf)`.
`read_t` is the inner type's `read`, modelled as a state-passing function
returning the bytes-read count or an OS error code. -/
def SplitReader.read {σ : Type} (read_t : σ → List Nat → σ × Except Nat Nat)
    (r : SplitReader σ) (buf : List Nat) : SplitReader σ × Except Nat Nat :=
  let p := read_t r.inner buf
  (⟨p.1⟩, p.2)

/-- `Write for SplitWriter` (split_io.rs lines 38-41): `self.inner.write(buf)`. -/
def SplitWriter.write {σ : Type} (write_t : σ → List Nat → σ × Except Nat Nat)
    (w : SplitWriter σ) (buf : List Nat) : SplitWriter σ × Except Nat Nat :=
  let p := write_t w.inner buf
  (⟨p.1⟩, p.2)

/-- `Write::flush for SplitWriter` (split_io.rs lines 43-45):
`self.inner.flush()`. -/
def SplitWriter.flush {σ : Type} (flush_t : σ → σ × Except Nat Unit)
    (w : SplitWriter σ) : SplitWriter σ × Except Nat Unit :=
  let p := flush_t w.inner
  (⟨p.1⟩, p.2)

end SplitIo

/-! ## Helper lemmas -/

/-- Setting the low bit of an even machine word adds one. -/
lemma even_lor_one (t : Nat) (h : t % 2 = 0) : t ||| 1 = t + 1 := by
  apply Nat.eq_of_testBit_eq
  intro i
  rw [Nat.testBit_lor]
  cases i with
  | zero =>
    have h1 : (t + 1) % 2 = 1 := by omega
    simp [Nat.testBit_zero, h1]
  | succ n =>
    have h1 : Nat.testBit 1 (n + 1) = false := by
      simp [Nat.testBit_succ]
    have h2 : (t + 1) / 2 = t / 2 := by omega
    rw [h1, Bool.or_false, Nat.testBit_succ, Nat.testBit_succ, h2]

lemma clearLowBit_succ_of_even (t : Nat) (h : t % 2 = 0) :
    clearLowBit (t + 1) = t := by
  unfold clearLowBit
  omega

lemma clearLowBit_of_even (t : Nat) (h : t % 2 = 0) : clearLowBit t = t := by
  unfold clearLowBit
  omega

/-! ## Claims -/

/-- C1: for every channel and every value `t`, if `port_dropped` is set then
`send(t)` returns `Err(t)` and leaves the whole state (in particular the
queue) unchanged; otherwise `send(t)` pushes `t` onto the SPSC queue, takes
the waiter slot, unparks the blocker if one was present, and returns
`Ok(())`. -/
theorem send_spec {T : Type} (s : InnerQueue T) (t : T) :
    (s.port_dropped = true → s.send t = ⟨s, .error t, none⟩) ∧
    (s.port_dropped = false →
      (s.send t).state = { s with queue := s.queue ++ [t], wait_co := none } ∧
      (s.send t).result = .ok () ∧
      (s.send t).unparked = s.wait_co.map Blocker.unpark) := by
  cases s with
  | mk q w ch pd =>
    cases pd <;> cases w <;> simp [InnerQueue.send]

/-- C1 witness: sending 5 on a live channel with a waiting coroutine pushes
the value and empties the waiter slot; sending 7 after the receiver was
dropped returns `Err(7)`. -/
theorem send_spec_witness :
    (InnerQueue.send ⟨[1], some (Blocker.new_coroutine 2), 1, false⟩
        (5 : Nat)).state = ⟨[1, 5], none, 1, false⟩ ∧
    (InnerQueue.send ⟨[], none, 1, true⟩ (7 : Nat)).result = .error 7 := by
  constructor
  · exact ((send_spec (⟨[1], some (Blocker.new_coroutine 2), 1, false⟩ :
      InnerQueue Nat) 5).2 rfl).1
  · rw [(send_spec (⟨[], none, 1, true⟩ : InnerQueue Nat) 7).1 rfl]

/-- C2: `try_recv`, with the results of its two `queue.pop()` calls exposed:
a successful first pop returns `Ok(data)`; an empty first pop with
`channels > 0` returns `Err(Empty)`; with no senders left the queue is
popped a second time, returning `Err(Disconnected)` only if that second pop
also finds nothing and otherwise the second pop's value. -/
theorem try_recv_race_spec {T : Type} (pop1 pop2 : Option T) (channels : Nat) :
    (∀ d, pop1 = some d → try_recv_race pop1 channels pop2 = .ok d) ∧
    (pop1 = none → 0 < channels →
      try_recv_race pop1 channels pop2 = .error .Empty) ∧
    (pop1 = none → channels = 0 → pop2 = none →
      try_recv_race pop1 channels pop2 = .error .Disconnected) ∧
    (∀ d, pop1 = none → channels = 0 → pop2 = some d →
      try_recv_race pop1 channels pop2 = .ok d) := by
  cases pop1 <;> cases pop2 <;>
    simp +contextual [try_recv_race]

/-- C2 witness: the four behaviours at concrete pop results. -/
theorem try_recv_race_spec_witness :
    try_recv_race (some 3) 1 (none : Option Nat) = .ok 3 ∧
    try_recv_race (none : Option Nat) 1 none = .error .Empty ∧
    try_recv_race (none : Option Nat) 0 none = .error .Disconnected ∧
    try_recv_race (none : Option Nat) 0 (some 9) = .ok 9 :=
  ⟨(try_recv_race_spec (some 3) none 1).1 3 rfl,
   (try_recv_race_spec (none : Option Nat) none 1).2.1 rfl (by decide),
   (try_recv_race_spec (none : Option Nat) none 0).2.2.1 rfl rfl rfl,
   (try_recv_race_spec (none : Option Nat) (some 9) 0).2.2.2 9 rfl rfl rfl⟩

/-- C3: `Park::subscribe` first stores a coroutine-tagged blocker into the
waiter slot (the first step of every trace), then re-checks queue
non-emptiness; if the queue is non-empty it takes the blocker back out
(leaving the slot empty, so the coroutine is never left published while data
is available) and resumes the coroutine itself; if the queue is empty the
blocker stays published. -/
theorem park_subscribe_spec {T : Type} (s : InnerQueue T) (co : Handle) :
    (Park.subscribe s co).trace.head? =
      some (.store_waiter (Blocker.new_coroutine co)) ∧
    (s.queue = [] →
      Park.subscribe s co =
        ⟨{ s with wait_co := some (Blocker.new_coroutine co) }, none,
         [.store_waiter (Blocker.new_coroutine co), .recheck true]⟩) ∧
    (s.queue ≠ [] →
      Park.subscribe s co =
        ⟨{ s with wait_co := none }, some co,
         [.store_waiter (Blocker.new_coroutine co), .recheck false,
          .take_waiter (some (Blocker.new_coroutine co)), .run_co co]⟩) := by
  cases s with
  | mk q w ch pd =>
    cases q <;>
      simp [Park.subscribe, Blocker.new_coroutine, Blocker.into_coroutine]

/-- C3 witness: subscribing coroutine 2 while the queue holds data takes the
blocker back and resumes the coroutine, leaving the slot empty. -/
theorem park_subscribe_spec_witness :
    Park.subscribe (⟨[4], none, 1, false⟩ : InnerQueue Nat) 2 =
      ⟨⟨[4], none, 1, false⟩, some 2,
       [.store_waiter (Blocker.new_coroutine 2), .recheck false,
        .take_waiter (some (Blocker.new_coroutine 2)), .run_co 2]⟩ :=
  (park_subscribe_spec (⟨[4], none, 1, false⟩ : InnerQueue Nat) 2).2.2
    (by decide)

/-- C4: dropping the `Sender` (which calls `drop_chan`) stores 0 to the
sender-alive count, takes-and-unparks any blocker in the waiter slot, leaves
the queue intact, and once the queue is drained a subsequent `try_recv`
observes `Disconnected`. -/
theorem sender_drop_spec {T : Type} (s : InnerQueue T) :
    (sender_drop s).state.channels = 0 ∧
    (sender_drop s).state.wait_co = none ∧
    (sender_drop s).state.queue = s.queue ∧
    (sender_drop s).unparked = s.wait_co.map Blocker.unpark ∧
    ((sender_drop s).state.queue = [] →
      ((sender_drop s).state.try_recv).result = .error .Disconnected) := by
  cases s with
  | mk q w ch pd =>
    cases w <;> cases q <;>
      simp [sender_drop, InnerQueue.drop_chan, InnerQueue.try_recv]

/-- C4 witness: dropping the sender of an empty channel with a parked thread
waiter unparks that thread, and the drained channel reports
`Disconnected`. -/
theorem sender_drop_spec_witness :
    (sender_drop (⟨[], some (Blocker.new_thread 4), 1, false⟩ :
        InnerQueue Nat)).unparked = some (.thread_unpark 4) ∧
    ((sender_drop (⟨[], some (Blocker.new_thread 4), 1, false⟩ :
        InnerQueue Nat)).state.try_recv).result = .error .Disconnected := by
  constructor
  · rw [(sender_drop_spec (⟨[], some (Blocker.new_thread 4), 1, false⟩ :
      InnerQueue Nat)).2.2.2.1]
    decide
  · exact (sender_drop_spec (⟨[], some (Blocker.new_thread 4), 1, false⟩ :
      InnerQueue Nat)).2.2.2.2 rfl

/-- C5: the Blocker is a one-word tagged value with low bit 0 for a
coroutine and low bit 1 for a thread; `new_thread` then `into_thread`
returns the thread handle, `new_coroutine` then `into_coroutine` returns
the coroutine handle, and `unpark` dispatches on the tag: low bit 0
schedules the coroutine, low bit 1 unparks the thread. Both handle kinds
are 2-byte aligned, i.e. even. -/
theorem blocker_tagging (c t : Nat) (hc : c % 2 = 0) (ht : t % 2 = 0) :
    (Blocker.new_coroutine c).handle % 2 = 0 ∧
    (Blocker.new_thread t).handle % 2 = 1 ∧
    (Blocker.new_coroutine c).into_coroutine = c ∧
    (Blocker.new_thread t).into_thread = t ∧
    (Blocker.new_coroutine c).unpark = .schedule c ∧
    (Blocker.new_thread t).unpark = .thread_unpark t := by
  have hlor : t ||| 1 = t + 1 := even_lor_one t ht
  have hmod : (t + 1) % 2 = 1 := by omega
  refine ⟨hc, ?_, rfl, ?_, ?_, ?_⟩
  · show (t ||| 1) % 2 = 1
    rw [hlor]
    exact hmod
  · show clearLowBit (t ||| 1) = t
    rw [hlor]
    exact clearLowBit_succ_of_even t ht
  · simp [Blocker.unpark, Blocker.new_coroutine, Blocker.into_coroutine, hc]
  · show Blocker.unpark ⟨t ||| 1⟩ = .thread_unpark t
    rw [hlor]
    simp [Blocker.unpark, Blocker.into_thread, hmod,
      clearLowBit_succ_of_even t ht]

/-- C5 witness: round trips and unpark dispatch at coroutine handle 2 and
thread handle 4. -/
theorem blocker_tagging_witness :
    (Blocker.new_thread 4).into_thread = 4 ∧
    (Blocker.new_coroutine 2).unpark = .schedule 2 ∧
    (Blocker.new_thread 4).unpark = .thread_unpark 4 :=
  ⟨(blocker_tagging 2 4 rfl rfl).2.2.2.1,
   (blocker_tagging 2 4 rfl rfl).2.2.2.2.1,
   (blocker_tagging 2 4 rfl rfl).2.2.2.2.2⟩

/-- C6: `Drop for Blocker` hits `unreachable!()` (a fatal invariant
violation) when the tag denotes a coroutine (low bit 0), and releases the
stored thread handle when the tag denotes a thread (low bit 1). -/
theorem blocker_drop_dispatch (b : Blocker) (t : Nat) (ht : t % 2 = 0) :
    (b.handle % 2 = 0 → b.drop_blocker = .fatal) ∧
    (b.handle % 2 = 1 →
      b.drop_blocker = .release_thread (clearLowBit b.handle)) ∧
    (Blocker.new_thread t).drop_blocker = .release_thread t := by
  have hlor : t ||| 1 = t + 1 := even_lor_one t ht
  have hmod : (t + 1) % 2 = 1 := by omega
  refine ⟨?_, ?_, ?_⟩
  · intro h
    simp [Blocker.drop_blocker, h]
  · intro h
    simp [Blocker.drop_blocker, h]
  · show Blocker.drop_blocker ⟨t ||| 1⟩ = .release_thread t
    rw [hlor]
    simp [Blocker.drop_blocker, hmod, clearLowBit_succ_of_even t ht]

/-- C6 witness: dropping a coroutine-tagged blocker (even word 2) is fatal;
dropping a thread-tagged blocker built from thread handle 4 releases that
handle. -/
theorem blocker_drop_dispatch_witness :
    (Blocker.mk 2).drop_blocker = .fatal ∧
    (Blocker.new_thread 4).drop_blocker = .release_thread 4 :=
  ⟨(blocker_drop_dispatch ⟨2⟩ 4 rfl).1 rfl,
   (blocker_drop_dispatch ⟨2⟩ 4 rfl).2.2⟩

/-- C7 counterexample: a successfully completed event (`NO_ERROR`) whose
EventData carries timer handle 7: `Selector::select` does NOT remove the
timer from the wheel (`timer_removed = none` and the EventData still holds
the timer), contradicting the claim that every drained event with an
associated timer has its timer removed. -/
theorem select_success_leaves_timer :
    Iocp.process_event Iocp.NO_ERROR ⟨some 7, some 3⟩ =
      some ⟨⟨some 7, none⟩, .noError, none, 3⟩ := rfl

/-- C7 (amended): for every drained completion whose EventData holds a
coroutine, the coroutine is taken out of the slot and handed to
`schedule_io` exactly once; the status word is decoded so that
operation-aborted stores a `TimedOut` error AND removes the associated timer
from the wheel, success stores no error, and any other status stores the raw
OS error — but in the success and other-error cases the timer is left in
place. -/
theorem process_event_spec (internal : Nat) (timer : Option Nat)
    (co : Handle) :
    (internal = Iocp.ERROR_OPERATION_ABORTED →
      Iocp.process_event internal ⟨timer, some co⟩ =
        some ⟨⟨none, none⟩, .timedOut, timer, co⟩) ∧
    (internal = Iocp.NO_ERROR →
      Iocp.process_event internal ⟨timer, some co⟩ =
        some ⟨⟨timer, none⟩, .noError, none, co⟩) ∧
    (internal ≠ Iocp.ERROR_OPERATION_ABORTED → internal ≠ Iocp.NO_ERROR →
      Iocp.process_event internal ⟨timer, some co⟩ =
        some ⟨⟨timer, none⟩, .osError internal, none, co⟩) := by
  refine ⟨?_, ?_, ?_⟩
  · intro h1
    simp [Iocp.process_event, h1]
  · intro h2
    have h1 : internal ≠ Iocp.ERROR_OPERATION_ABORTED := by
      rw [h2]
      decide
    simp [Iocp.process_event, h1, h2]
    decide
  · intro h1 h2
    simp [Iocp.process_event, h1, h2]

/-- C7 (amended) witness: an aborted completion with timer handle 7 removes
the timer and injects `TimedOut`; status 5 leaves the timer and injects the
raw OS error; both hand coroutine 3 to `schedule_io`. -/
theorem process_event_spec_witness :
    Iocp.process_event Iocp.ERROR_OPERATION_ABORTED ⟨some 7, some 3⟩ =
      some ⟨⟨none, none⟩, .timedOut, some 7, 3⟩ ∧
    Iocp.process_event 5 ⟨some 7, some 3⟩ =
      some ⟨⟨some 7, none⟩, .osError 5, none, 3⟩ :=
  ⟨(process_event_spec Iocp.ERROR_OPERATION_ABORTED (some 7) 3).1 rfl,
   (process_event_spec 5 (some 7) 3).2.2 (by decide) (by decide)⟩

/-- C8: `Selector::select` with `Some(timeout_ns)` converts the nanosecond
value to milliseconds and clamps it to `u32::MAX`, so the OS wait bound
never exceeds the platform maximum and equals the converted value whenever
that fits; with `None` it passes an unbounded wait to the OS. -/
theorem select_timeout_spec (ns : Nat) :
    Iocp.select_timeout none = none ∧
    Iocp.select_timeout (some ns) =
      some (min (Iocp.ns_to_ms ns) Iocp.U32_MAX) ∧
    (Iocp.select_timeout (some ns)).getD 0 ≤ Iocp.U32_MAX ∧
    (Iocp.ns_to_ms ns ≤ Iocp.U32_MAX →
      Iocp.select_timeout (some ns) = some (Iocp.ns_to_ms ns)) := by
  refine ⟨rfl, rfl, ?_, ?_⟩
  · simp [Iocp.select_timeout]
  · intro h
    simp [Iocp.select_timeout, h]

/-- C8 witness: 2 milliseconds' worth of nanoseconds is below the clamp and
converts to exactly 2. -/
theorem select_timeout_spec_witness :
    Iocp.select_timeout (some 2000000) = some (Iocp.ns_to_ms 2000000) :=
  (select_timeout_spec 2000000).2.2.2 (by decide)

/-- C9: `SocketWrite::subscribe` registers the operation's timeout with the
selector's timer wheel, then publishes the coroutine into the EventData's
slot, and only then issues the overlapped OS write; when the OS call fails
the coroutine is taken back out of the slot (the slot ends empty) and
resumed with the error. -/
theorem socket_write_subscribe_spec (co : Handle) (timeout : Option Nat)
    (e : Nat) :
    SocketWrite.subscribe co timeout (.ok ()) =
      ⟨[.add_io_timer timeout, .publish_co co, .os_write_call], some co⟩ ∧
    SocketWrite.subscribe co timeout (.error e) =
      ⟨[.add_io_timer timeout, .publish_co co, .os_write_call,
        .resume_with_error co e], none⟩ :=
  ⟨rfl, rfl⟩

/-- C10: the split halves are pure pass-throughs: `SplitReader::read`,
`SplitWriter::write` and `SplitWriter::flush` return exactly what the inner
object's `read`, `write` and `flush` return (same result, same inner
state). -/
theorem split_io_passthrough {σ : Type}
    (read_t write_t : σ → List Nat → σ × Except Nat Nat)
    (flush_t : σ → σ × Except Nat Unit) (s : σ) (buf : List Nat) :
    ((SplitIo.SplitReader.read read_t ⟨s⟩ buf).1.inner,
        (SplitIo.SplitReader.read read_t ⟨s⟩ buf).2) = read_t s buf ∧
    ((SplitIo.SplitWriter.write write_t ⟨s⟩ buf).1.inner,
        (SplitIo.SplitWriter.write write_t ⟨s⟩ buf).2) = write_t s buf ∧
    ((SplitIo.SplitWriter.flush flush_t ⟨s⟩).1.inner,
        (SplitIo.SplitWriter.flush flush_t ⟨s⟩).2) = flush_t s :=
  ⟨rfl, rfl, rfl⟩

end MaySpec
